import Mathlib

/-!
Shallow embedding of the generation-orchestration and versioned-state core of
the character-sheet application (src/App.tsx, src/types.ts), together with
theorems settling the specification claims about it.

Conventions of the embedding:
* TypeScript `string | null` becomes `Option String`; JS truthiness tests on
  such values (`if (x)`) become `Option.isSome` tests.
* `Record<string, T>` maps become total functions `String → T` (absent keys
  map to the record's default: `none` / `[]`), and object-spread updates
  become pointwise function overrides.
* React's `setAppState(prev => …)` functional updates are applied in program
  order to the latest state, while reads of the captured `appState` variable
  inside a handler see the state as of dispatch time; handlers therefore take
  both the dispatch-time snapshot and thread the evolving store.
* The external collaborator calls (`generateCompositeSheet`,
  `generateCharacterView`, `upscaleImage`) are oracles passed in as
  functions; a thrown exception is modelled as `Except.error ()` where the
  call site distinguishes throwing from a null result, and as `none` where
  the service layer already converts exceptions to null.
-/

/-- The `Modification` record from src/types.ts. -/
structure Modification where
  id : String
  prompt : String
  image : Option String
  timestamp : Nat
deriving DecidableEq, Repr

/-- The `BoundingBox` from src/types.ts (normalized 0-1000 coordinates). -/
structure BoundingBox where
  ymin : Int
  xmin : Int
  ymax : Int
  xmax : Int
deriving DecidableEq, Repr

/-- The `CharacterPart` from src/types.ts: a detected crop for a part. -/
structure CharacterPart where
  type : String
  label : String
  box : BoundingBox
  imgUrl : Option String
deriving DecidableEq, Repr

/-- The `ViewHistoryItem` from src/types.ts: a view snapshot records exactly
`originalImage`, `generatedImage` and `modifications`. -/
structure ViewHistoryItem where
  originalImage : Option String
  generatedImage : Option String
  modifications : List Modification
deriving DecidableEq, Repr

/-- The `PartHistoryItem` from src/types.ts. -/
structure PartHistoryItem where
  imgUrl : Option String
  modifications : List Modification
deriving DecidableEq, Repr

/-- The `HistoryState<T>` from src/types.ts. -/
structure HistoryState (T : Type) where
  undoStack : List T
  redoStack : List T
deriving DecidableEq, Repr

/-- The `ViewType` enum from src/types.ts. -/
inductive ViewType where
  | FRONT
  | SEMI_SIDE
  | SIDE
  | BACK
deriving DecidableEq, Repr

/-- The `PoseType` enum from src/types.ts. -/
inductive PoseType where
  | A_POSE
  | T_POSE
  | I_POSE
deriving DecidableEq, Repr

/-- The `CharacterView` from src/types.ts; `parts` is the
`Record<string, CharacterPart | null>` as a total function. -/
structure CharacterView where
  originalImage : Option String
  userUploadedImage : Option String
  generatedImage : Option String
  parts : String → Option CharacterPart
  modifications : List Modification
  history : HistoryState ViewHistoryItem

/-- The `GeneratedPartSheet` from src/types.ts. -/
structure GeneratedPartSheet where
  partType : String
  imgUrl : Option String
  isLoading : Bool
  modifications : List Modification
  history : HistoryState PartHistoryItem
deriving DecidableEq, Repr

/-- The `CustomPart` from src/types.ts. -/
structure CustomPart where
  id : String
  label : String
deriving DecidableEq, Repr

/-- The `AppState` from src/types.ts (record-valued fields as total functions). -/
structure AppState where
  views : ViewType → CharacterView
  generatedSheets : String → GeneratedPartSheet
  manualReferences : String → List String
  customParts : List CustomPart
  colorPalette : List String
  globalStylePrompt : String
  originalParts : String → Option CharacterPart

/-- Pointwise update of one part sheet, i.e. the
`{...prev, generatedSheets: {...prev.generatedSheets, [p]: f(prev.generatedSheets[p])}}`
spread pattern used throughout src/App.tsx. -/
def setSheet (st : AppState) (p : String) (f : GeneratedPartSheet → GeneratedPartSheet) :
    AppState :=
  { st with
    generatedSheets := fun q => if q = p then f (st.generatedSheets q) else st.generatedSheets q }

/-- Pointwise update of one view (the `updateViewState` spread pattern). -/
def setView (st : AppState) (v : ViewType) (f : CharacterView → CharacterView) : AppState :=
  { st with
    views := fun w => if w = v then f (st.views w) else st.views w }

/-! History manager (src/App.tsx lines 133-326). -/

/-- The `HISTORY_LIMIT` from src/App.tsx. -/
def HISTORY_LIMIT : Nat := 10

/-- The bounded push shared by `recordViewHistory` and `recordPartHistory`:
`newUndo = [...stack, item]`, then `slice(newUndo.length - HISTORY_LIMIT)`
when the length exceeds the limit. -/
def pushBounded {α : Type} (stack : List α) (item : α) : List α :=
  let newUndo := stack ++ [item]
  if newUndo.length > HISTORY_LIMIT then newUndo.drop (newUndo.length - HISTORY_LIMIT)
  else newUndo

/-- The snapshot `recordViewHistory` takes of a view. -/
def viewSnapshot (viewData : CharacterView) : ViewHistoryItem :=
  { originalImage := viewData.originalImage
    generatedImage := viewData.generatedImage
    modifications := viewData.modifications }

/-- The snapshot `recordPartHistory` takes of a part sheet. -/
def partSnapshot (sheet : GeneratedPartSheet) : PartHistoryItem :=
  { imgUrl := sheet.imgUrl
    modifications := sheet.modifications }

/-- Per-view body of `recordViewHistory` (src/App.tsx lines 135-163). -/
def recordViewHistoryView (viewData : CharacterView) : CharacterView :=
  { viewData with
    history :=
      { undoStack := pushBounded viewData.history.undoStack (viewSnapshot viewData)
        redoStack := [] } }

/-- The `recordViewHistory` as a state transformer. -/
def recordViewHistory (view : ViewType) (st : AppState) : AppState :=
  setView st view recordViewHistoryView

/-- Per-sheet body of `recordPartHistory` (src/App.tsx lines 165-192). -/
def recordPartHistorySheet (sheet : GeneratedPartSheet) : GeneratedPartSheet :=
  { sheet with
    history :=
      { undoStack := pushBounded sheet.history.undoStack (partSnapshot sheet)
        redoStack := [] } }

/-- The `recordPartHistory` as a state transformer. -/
def recordPartHistory (part : String) (st : AppState) : AppState :=
  setSheet st part recordPartHistorySheet

/-- Per-view body of `handleViewUndo` (src/App.tsx lines 194-227):
`undoStack[len-1]` is the last element, `slice(0, len-1)` is `dropLast`. -/
def handleViewUndoView (viewData : CharacterView) : CharacterView :=
  match viewData.history.undoStack.getLast? with
  | none => viewData
  | some previousState =>
      { viewData with
        originalImage := previousState.originalImage
        generatedImage := previousState.generatedImage
        modifications := previousState.modifications
        history :=
          { undoStack := viewData.history.undoStack.dropLast
            redoStack := viewData.history.redoStack ++ [viewSnapshot viewData] } }

/-- The `handleViewUndo` as a state transformer. -/
def handleViewUndo (view : ViewType) (st : AppState) : AppState :=
  setView st view handleViewUndoView

/-- Per-view body of `handleViewRedo` (src/App.tsx lines 229-262). -/
def handleViewRedoView (viewData : CharacterView) : CharacterView :=
  match viewData.history.redoStack.getLast? with
  | none => viewData
  | some nextState =>
      { viewData with
        originalImage := nextState.originalImage
        generatedImage := nextState.generatedImage
        modifications := nextState.modifications
        history :=
          { undoStack := viewData.history.undoStack ++ [viewSnapshot viewData]
            redoStack := viewData.history.redoStack.dropLast } }

/-- The `handleViewRedo` as a state transformer. -/
def handleViewRedo (view : ViewType) (st : AppState) : AppState :=
  setView st view handleViewRedoView

/-- Per-sheet body of `handlePartUndo` (src/App.tsx lines 264-294). -/
def handlePartUndoSheet (sheet : GeneratedPartSheet) : GeneratedPartSheet :=
  match sheet.history.undoStack.getLast? with
  | none => sheet
  | some previousState =>
      { sheet with
        imgUrl := previousState.imgUrl
        modifications := previousState.modifications
        history :=
          { undoStack := sheet.history.undoStack.dropLast
            redoStack := sheet.history.redoStack ++ [partSnapshot sheet] } }

/-- The `handlePartUndo` as a state transformer. -/
def handlePartUndo (part : String) (st : AppState) : AppState :=
  setSheet st part handlePartUndoSheet

/-- Per-sheet body of `handlePartRedo` (src/App.tsx lines 296-326). -/
def handlePartRedoSheet (sheet : GeneratedPartSheet) : GeneratedPartSheet :=
  match sheet.history.redoStack.getLast? with
  | none => sheet
  | some nextState =>
      { sheet with
        imgUrl := nextState.imgUrl
        modifications := nextState.modifications
        history :=
          { undoStack := sheet.history.undoStack ++ [partSnapshot sheet]
            redoStack := sheet.history.redoStack.dropLast } }

/-- The `handlePartRedo` as a state transformer. -/
def handlePartRedo (part : String) (st : AppState) : AppState :=
  setSheet st part handlePartRedoSheet

/-! Reference resolver and part generation (src/App.tsx lines 637-724). -/

/-- The active views checked for detected crops (src/App.tsx lines 660-662). -/
def viewsToCheck (isSingleViewMode : Bool) : List ViewType :=
  if isSingleViewMode then [ViewType.FRONT]
  else [ViewType.FRONT, ViewType.SEMI_SIDE, ViewType.SIDE, ViewType.BACK]

/-- Step 1 of source resolution (src/App.tsx lines 644-656): the original
(pre-normalization) crop, falling back to the raw front upload, included only
when `referenceBalance < 10`. -/
def originalCropSources (pType : String) (currentState : AppState)
    (referenceBalance : Nat) : List String :=
  if referenceBalance < 10 then
    match (currentState.originalParts pType).bind CharacterPart.imgUrl with
    | some originalCrop => [originalCrop]
    | none =>
        match (currentState.views ViewType.FRONT).userUploadedImage with
        | some fullUpload => [fullUpload]
        | none => []
  else []

/-- Step 2 of source resolution (src/App.tsx lines 659-670): each active
view's detected crop for the part, included only when `referenceBalance > 0`. -/
def viewCropSources (pType : String) (currentState : AppState)
    (referenceBalance : Nat) (isSingleViewMode : Bool) : List String :=
  if referenceBalance > 0 then
    (viewsToCheck isSingleViewMode).filterMap
      (fun v => ((currentState.views v).parts pType).bind CharacterPart.imgUrl)
  else []

/-- The `crops` list assembled at the top of `generatePart`
(src/App.tsx lines 638-676): original-crop category, then view-crop category,
then all manual references in attachment order. -/
def resolveSources (pType : String) (currentState : AppState)
    (referenceBalance : Nat) (isSingleViewMode : Bool) : List String :=
  originalCropSources pType currentState referenceBalance
    ++ viewCropSources pType currentState referenceBalance isSingleViewMode
    ++ currentState.manualReferences pType

/-- The weighting note of src/App.tsx line 707. -/
def balanceNote (referenceBalance : Nat) : String :=
  "NOTE: Use a blend of reference styles. Original Image Weight: "
    ++ toString (10 - referenceBalance) ++ "/10. Generated Views Weight: "
    ++ toString referenceBalance ++ "/10."

/-- The `effectiveStylePrompt` (src/App.tsx lines 705-709): the weighting note is
appended exactly when `0 < referenceBalance < 10`. -/
def effectiveStylePrompt (globalStylePrompt : String) (referenceBalance : Nat) : String :=
  if 0 < referenceBalance ∧ referenceBalance < 10 then
    if globalStylePrompt = "" then balanceNote referenceBalance
    else globalStylePrompt ++ ". " ++ balanceNote referenceBalance
  else globalStylePrompt

/-- Modelled from the spec: `PART_LABELS` lives in `src/constants`, which is not
present under src/. The spec treats it as a display-label table for the eleven
standard part types (§1: translation tables are plumbing); only its domain
matters to the core, so the label is taken to be the part-type string itself. -/
def PART_LABELS (pType : String) : Option String :=
  if pType ∈ ["FACE", "HAIR", "HAT", "JACKET", "TOP", "BOTTOM", "SHOES", "GLOVES",
      "WEAPON", "BAG", "ACCESSORY"] then some pType
  else none

/-- The `labelToPass` computation of src/App.tsx lines 698-702. -/
def labelToPassFor (pType : String) (currentState : AppState) : String :=
  match PART_LABELS pType with
  | some l => l
  | none =>
      match currentState.customParts.find? (fun c => c.id = pType) with
      | some custom => custom.label
      | none => "Custom Part"

/-- One invocation of the `generateCompositeSheet` collaborator, capturing the
arguments src/App.tsx line 711 passes. -/
structure CompositeCall where
  crops : List String
  partType : String
  partLabel : String
  modifications : List Modification
  stylePrompt : String
deriving DecidableEq, Repr

/-- The collaborator invocation `generatePart` makes for `pType` given the
dispatch-time snapshot `currentState` (src/App.tsx lines 697-711). -/
def partCall (referenceBalance : Nat) (isSingleViewMode : Bool) (pType : String)
    (currentState : AppState) (overrideModifications : Option (List Modification)) :
    CompositeCall :=
  { crops := resolveSources pType currentState referenceBalance isSingleViewMode
    partType := pType
    partLabel := labelToPassFor pType currentState
    modifications :=
      overrideModifications.getD (currentState.generatedSheets pType).modifications
    stylePrompt := effectiveStylePrompt currentState.globalStylePrompt referenceBalance }

/-- The `generatePart` (src/App.tsx lines 637-724). `oracle` is the
`generateCompositeSheet` collaborator (the service layer catches its own
exceptions and returns null, hence `Option`). `currentState` is the captured
`appState` snapshot the body reads from; `store` is the live store the
`setAppState` functional updates are applied to. Returns the final store and
the list of collaborator invocations made (zero or one). -/
def generatePart (referenceBalance : Nat) (isSingleViewMode : Bool)
    (oracle : CompositeCall → Option String) (pType : String)
    (currentState : AppState) (overrideModifications : Option (List Modification))
    (store : AppState) : AppState × List CompositeCall :=
  let crops := resolveSources pType currentState referenceBalance isSingleViewMode
  if crops.isEmpty then
    (setSheet store pType (fun s => { s with imgUrl := none, isLoading := false }), [])
  else
    let store1 := setSheet store pType (fun s => { s with isLoading := true })
    let call := partCall referenceBalance isSingleViewMode pType currentState
      overrideModifications
    let compositeUrl := oracle call
    (setSheet store1 pType (fun s => { s with imgUrl := compositeUrl, isLoading := false }),
      [call])

/-- The store as it stands while `generatePart`'s collaborator call for `part`
is awaited: the loading write (src/App.tsx lines 689-695) has been applied,
the completion write has not. -/
def generatePartInFlight (part : String) (store : AppState) : AppState :=
  setSheet store part (fun s => { s with isLoading := true })

/-- The `handleRegeneratePart` (src/App.tsx lines 726-731): rejected while the
sheet `isLoading`; otherwise records part history and runs `generatePart`
against the dispatch-time snapshot. (The `verifyApiKey` guard aborts with no
state change when no key is configured; the embedding models the
key-configured case.) -/
def handleRegeneratePart (referenceBalance : Nat) (isSingleViewMode : Bool)
    (oracle : CompositeCall → Option String) (part : String) (st : AppState) :
    AppState × List CompositeCall :=
  if (st.generatedSheets part).isLoading then (st, [])
  else generatePart referenceBalance isSingleViewMode oracle part st none
    (recordPartHistory part st)

/-- The `handleBatchRegenerateParts` (src/App.tsx lines 832-839). Each fanned-out
`generatePart` only writes to its own part's key and reads sources from the
dispatch-time snapshot `st`, so the `Promise.all` interleaving of writes is
result-equivalent to this sequential fold. -/
def handleBatchRegenerateParts (referenceBalance : Nat) (isSingleViewMode : Bool)
    (oracle : CompositeCall → Option String) (parts : List String) (st : AppState) :
    AppState × List CompositeCall :=
  let validParts := parts.filter (fun p => !(st.generatedSheets p).isLoading)
  if validParts.isEmpty then (st, [])
  else
    let st1 := validParts.foldl (fun acc p => recordPartHistory p acc) st
    validParts.foldl (fun (acc : AppState × List CompositeCall) p =>
        let r := generatePart referenceBalance isSingleViewMode oracle p st none acc.1
        (r.1, acc.2 ++ r.2)) (st1, [])

/-- The `handlePartModification` (src/App.tsx lines 929-958): appends the new
modification and regenerates with the updated ledger passed as the override. -/
def handlePartModification (referenceBalance : Nat) (isSingleViewMode : Bool)
    (oracle : CompositeCall → Option String) (part : String) (prompt : String)
    (image : Option String) (newId : String) (now : Nat) (st : AppState) :
    AppState × List CompositeCall :=
  if (st.generatedSheets part).isLoading then (st, [])
  else
    let st1 := recordPartHistory part st
    let newModification : Modification :=
      { id := newId, prompt := prompt, image := image, timestamp := now }
    let updatedModifications :=
      (st.generatedSheets part).modifications ++ [newModification]
    let st2 := setSheet st1 part (fun s => { s with modifications := updatedModifications })
    generatePart referenceBalance isSingleViewMode oracle part st
      (some updatedModifications) st2

/-- The `handleDeleteModification` (src/App.tsx lines 960-976): filters the entry
out of the ledger and regenerates with the updated ledger as the override. -/
def handleDeleteModification (referenceBalance : Nat) (isSingleViewMode : Bool)
    (oracle : CompositeCall → Option String) (part : String) (modId : String)
    (st : AppState) : AppState × List CompositeCall :=
  if (st.generatedSheets part).isLoading then (st, [])
  else
    let st1 := recordPartHistory part st
    let updatedModifications :=
      (st.generatedSheets part).modifications.filter (fun m => m.id ≠ modId)
    let st2 := setSheet st1 part (fun s => { s with modifications := updatedModifications })
    generatePart referenceBalance isSingleViewMode oracle part st
      (some updatedModifications) st2

/-! Upscaling (src/App.tsx lines 733-830). -/

/-- Outcome of one `upscaleImage` collaborator call as seen at the call site:
`Except.error ()` models a thrown exception (landing in the `catch` branch),
`Except.ok none` a null result, `Except.ok (some url)` success. -/
def UpscaleOracle : Type := String → Except Unit (Option String)

/-- The `handleUpscalePart` (src/App.tsx lines 733-774). Returns the final store,
the final `upscalingParts` list, and the list of images the collaborator was
invoked on (zero or one). -/
def handleUpscalePart (upscaleOracle : UpscaleOracle) (part : String) (st : AppState)
    (upscalingParts : List String) : AppState × List String × List String :=
  if (st.generatedSheets part).isLoading then (st, upscalingParts, [])
  else
    match (st.generatedSheets part).imgUrl with
    | none => (st, upscalingParts, [])
    | some currentImage =>
        let st1 := recordPartHistory part st
        let ups1 := upscalingParts ++ [part]
        let st2 := setSheet st1 part (fun s => { s with isLoading := true })
        let st3 :=
          match upscaleOracle currentImage with
          | Except.ok (some upscaledUrl) =>
              setSheet st2 part (fun s => { s with imgUrl := some upscaledUrl, isLoading := false })
          | Except.ok none =>
              setSheet st2 part (fun s => { s with isLoading := false })
          | Except.error _ =>
              setSheet st2 part (fun s => { s with isLoading := false })
        (st3, ups1.filter (fun p => p ≠ part), [currentImage])

/-- The `handleBatchUpscaleParts` (src/App.tsx lines 777-830). The filter requires
a non-null image, a clear loading flag, and absence from `upscalingParts`; on a
null result the completion write is `upscaled || prev.imgUrl`, keeping the
prior value. Writes of distinct parts touch distinct keys, so the
`Promise.all` interleaving is result-equivalent to this sequential fold. -/
def handleBatchUpscaleParts (upscaleOracle : UpscaleOracle) (parts : List String)
    (st : AppState) (upscalingParts : List String) :
    AppState × List String × List String :=
  let validParts := parts.filter (fun p =>
      (st.generatedSheets p).imgUrl.isSome && !(st.generatedSheets p).isLoading
        && !(upscalingParts.contains p))
  if validParts.isEmpty then (st, upscalingParts, [])
  else
    let ups1 := upscalingParts ++ validParts
    let st1 := validParts.foldl
      (fun acc p => setSheet acc p (fun s => { s with isLoading := true })) st
    let final := validParts.foldl (fun (acc : AppState × List String) p =>
        let acc1 := recordPartHistory p acc.1
        match (st.generatedSheets p).imgUrl with
        | none => (acc1, acc.2)
        | some currentImage =>
            let acc2 :=
              match upscaleOracle currentImage with
              | Except.ok (some u) =>
                  setSheet acc1 p (fun s => { s with imgUrl := some u, isLoading := false })
              | Except.ok none =>
                  setSheet acc1 p (fun s => { s with isLoading := false })
              | Except.error _ =>
                  setSheet acc1 p (fun s => { s with isLoading := false })
            (acc2, acc.2 ++ [currentImage])) (st1, [])
    (final.1, ups1.filter (fun p => !(validParts.contains p)), final.2)

/-! View regeneration (src/App.tsx lines 889-927; the UI's per-view regenerate
button dispatches `handleBatchRegenerateViews([view])`, src/App.tsx line 1994). -/

/-- One invocation of the `generateCharacterView` collaborator with the
arguments src/App.tsx line 913 passes. -/
structure ViewGenCall where
  sourceImage : String
  targetView : ViewType
  pose : PoseType
  modifications : List Modification
  contextImage : Option String
deriving DecidableEq, Repr

/-- Source-image selection of src/App.tsx lines 901-903. -/
def viewSourceImage (view : ViewType) (st : AppState) : Option String :=
  if view = ViewType.FRONT then
    match (st.views ViewType.FRONT).userUploadedImage with
    | some u => some u
    | none => (st.views ViewType.FRONT).originalImage
  else (st.views ViewType.FRONT).originalImage

/-- Context-image selection of src/App.tsx lines 907-909. -/
def viewContextImage (view : ViewType) (st : AppState) : Option String :=
  if view = ViewType.SIDE ∨ view = ViewType.BACK then
    (st.views ViewType.SEMI_SIDE).originalImage
  else none

/-- The `handleBatchRegenerateViews` (src/App.tsx lines 889-927). Views already in
`processingViews` are filtered out; each survivor reads its source from the
dispatch-time snapshot, records history, calls the collaborator, and on a
non-null result overwrites `originalImage` and `generatedImage`. Returns the
final store, the final `processingViews` list, and the collaborator calls. -/
def handleBatchRegenerateViews (viewOracle : ViewGenCall → Option String)
    (targetPose : PoseType) (targetViews : List ViewType) (st : AppState)
    (processingViews : List ViewType) : AppState × List ViewType × List ViewGenCall :=
  let validTargets := targetViews.filter (fun v => !(processingViews.contains v))
  if validTargets.isEmpty then (st, processingViews, [])
  else
    let pv1 := processingViews ++ validTargets
    let final := validTargets.foldl (fun (acc : AppState × List ViewGenCall) view =>
        match viewSourceImage view st with
        | none => acc
        | some sourceImage =>
            let acc1 := recordViewHistory view acc.1
            let call : ViewGenCall :=
              { sourceImage := sourceImage
                targetView := view
                pose := targetPose
                modifications := (st.views view).modifications
                contextImage := viewContextImage view st }
            match viewOracle call with
            | some newViewImage =>
                (setView acc1 view (fun w =>
                    { w with
                      originalImage := some newViewImage
                      generatedImage := some newViewImage }),
                  acc.2 ++ [call])
            | none => (acc1, acc.2 ++ [call])) (st, [])
    (final.1, pv1.filter (fun v => !(validTargets.contains v)), final.2)

/-! A generic history-recorded mutation, as every mutating view/part action in
src/App.tsx performs it: `recordViewHistory`/`recordPartHistory` first, then
overwrite of (a subset of) the snapshot-covered fields — regeneration and
upscale write the image fields, ledger edits write `modifications`. -/

/-- Record history, then overwrite the snapshot-covered fields of a view. -/
def mutateView (viewData : CharacterView) (o g : Option String)
    (m : List Modification) : CharacterView :=
  { recordViewHistoryView viewData with
    originalImage := o
    generatedImage := g
    modifications := m }

/-- Record history, then overwrite the snapshot-covered fields of a sheet. -/
def mutatePart (sheet : GeneratedPartSheet) (u : Option String)
    (m : List Modification) : GeneratedPartSheet :=
  { recordPartHistorySheet sheet with
    imgUrl := u
    modifications := m }

/-- The visible (non-history) fields of a view. -/
structure ViewVisible where
  originalImage : Option String
  userUploadedImage : Option String
  generatedImage : Option String
  parts : String → Option CharacterPart
  modifications : List Modification

/-- Projection of a view onto its visible fields. -/
def viewVisible (v : CharacterView) : ViewVisible :=
  { originalImage := v.originalImage
    userUploadedImage := v.userUploadedImage
    generatedImage := v.generatedImage
    parts := v.parts
    modifications := v.modifications }

/-- The visible (non-history) fields of a part sheet. -/
structure PartVisible where
  partType : String
  imgUrl : Option String
  isLoading : Bool
  modifications : List Modification
deriving DecidableEq, Repr

/-- Projection of a part sheet onto its visible fields. -/
def partVisible (s : GeneratedPartSheet) : PartVisible :=
  { partType := s.partType
    imgUrl := s.imgUrl
    isLoading := s.isLoading
    modifications := s.modifications }

/-- A field assignment for one view mutation:
(originalImage, generatedImage, modifications). -/
def ViewMutation : Type := Option String × Option String × List Modification

/-- Apply a sequence of history-recorded view mutations in order. -/
def applyMutations (v : CharacterView) (us : List ViewMutation) : CharacterView :=
  us.foldl (fun w u => mutateView w u.1 u.2.1 u.2.2) v

/-- The pre-mutation snapshots taken along a mutation sequence, in
chronological order. -/
def preSnapshots (v : CharacterView) : List ViewMutation → List ViewHistoryItem
  | [] => []
  | u :: us => viewSnapshot v :: preSnapshots (mutateView v u.1 u.2.1 u.2.2) us

/-! Concrete fixtures used by witnesses and counterexamples. -/

/-- A concrete view with empty history. -/
def cView : CharacterView :=
  { originalImage := some "o"
    userUploadedImage := some "u"
    generatedImage := some "g"
    parts := fun _ => none
    modifications := []
    history := { undoStack := [], redoStack := [] } }

/-- A concrete part sheet with empty history. -/
def cSheet : GeneratedPartSheet :=
  { partType := "FACE"
    imgUrl := some "i"
    isLoading := false
    modifications := []
    history := { undoStack := [], redoStack := [] } }

/-- Eleven concrete view mutations (one more than the history limit). -/
def cMuts : List ViewMutation :=
  [(some "1", none, []), (some "2", none, []), (some "3", none, []),
   (some "4", none, []), (some "5", none, []), (some "6", none, []),
   (some "7", none, []), (some "8", none, []), (some "9", none, []),
   (some "10", none, []), (some "11", none, [])]

/-- A blank view (no images, no parts, no history). -/
def blankView : CharacterView :=
  { originalImage := none
    userUploadedImage := none
    generatedImage := none
    parts := fun _ => none
    modifications := []
    history := { undoStack := [], redoStack := [] } }

/-- A fresh empty sheet for part `p` (as `handleAddCustomPart` creates). -/
def emptySheetFor (p : String) : GeneratedPartSheet :=
  { partType := p
    imgUrl := none
    isLoading := false
    modifications := []
    history := { undoStack := [], redoStack := [] } }

/-- The blank project state. -/
def emptyState : AppState :=
  { views := fun _ => blankView
    generatedSheets := fun p => emptySheetFor p
    manualReferences := fun _ => []
    customParts := []
    colorPalette := []
    globalStylePrompt := ""
    originalParts := fun _ => none }

/-- A state with manual references for three parts and a previously generated
FACE sheet. -/
def demoState : AppState :=
  { emptyState with
    manualReferences := fun p =>
      if p = "FACE" then ["faceRef"]
      else if p = "HAIR" then ["hairRef"]
      else if p = "TOP" then ["topRef"]
      else []
    generatedSheets := fun p =>
      if p = "FACE" then { emptySheetFor p with imgUrl := some "oldFace" }
      else emptySheetFor p }

/-- A mocked composite collaborator that fails for FACE only. -/
def demoOracle : CompositeCall → Option String := fun c =>
  if c.partType = "FACE" then none else some ("gen_" ++ c.partType)

/-- A state whose FACE sheet is already loading (in flight). -/
def demoLoadingState : AppState :=
  { emptyState with
    generatedSheets := fun p =>
      if p = "FACE" then { emptySheetFor p with isLoading := true }
      else emptySheetFor p }

/-- A state whose FRONT view has an upload and a working image. -/
def demoViewState : AppState :=
  { emptyState with
    views := fun w =>
      if w = ViewType.FRONT then
        { blankView with
          originalImage := some "frontO"
          userUploadedImage := some "frontU" }
      else blankView }

/-- The `generateCharacterView` invocation `handleBatchRegenerateViews` makes
for view `v` once its source image `src` has been resolved
(src/App.tsx line 913). -/
def viewCallFor (v : ViewType) (st : AppState) (pose : PoseType) (src : String) :
    ViewGenCall :=
  { sourceImage := src
    targetView := v
    pose := pose
    modifications := (st.views v).modifications
    contextImage := viewContextImage v st }

/-- The `generateCharacterView` invocation a view ledger edit makes: the
arguments of src/App.tsx lines 1012 and 1046, with `mods` the updated ledger
passed in place of the stored one. -/
def viewLedgerCall (view : ViewType) (st : AppState) (pose : PoseType) (src : String)
    (mods : List Modification) : ViewGenCall :=
  { sourceImage := src
    targetView := view
    pose := pose
    modifications := mods
    contextImage := viewContextImage view st }

/-- The `handleViewModification` handler (src/App.tsx lines 979-1024):
rejected while the view is in `processingViews`; otherwise records history,
appends the new modification, and immediately regenerates the view passing
`updatedModifications` (not the stored ledger) to the collaborator. The source
image and context image are read from the dispatch-time snapshot. Returns the
final store, the final `processingViews`, and the collaborator calls made. -/
def handleViewModification (viewOracle : ViewGenCall → Option String)
    (targetPose : PoseType) (view : ViewType) (prompt : String)
    (image : Option String) (newId : String) (now : Nat)
    (st : AppState) (processingViews : List ViewType) :
    AppState × List ViewType × List ViewGenCall :=
  if processingViews.contains view then (st, processingViews, [])
  else
    let st1 := recordViewHistory view st
    let newModification : Modification :=
      { id := newId, prompt := prompt, image := image, timestamp := now }
    let updatedModifications := (st.views view).modifications ++ [newModification]
    let st2 := setView st1 view (fun w => { w with modifications := updatedModifications })
    let pv1 := processingViews ++ [view]
    match viewSourceImage view st with
    | none => (st2, pv1.filter (fun v => v ≠ view), [])
    | some sourceImage =>
        let call := viewLedgerCall view st targetPose sourceImage updatedModifications
        let stFinal :=
          match viewOracle call with
          | some newViewImage =>
              setView st2 view (fun w =>
                { w with
                  originalImage := some newViewImage
                  generatedImage := some newViewImage })
          | none => st2
        (stFinal, pv1.filter (fun v => v ≠ view), [call])

/-- The `handleDeleteViewModification` handler (src/App.tsx lines 1026-1058):
rejected while the view is in `processingViews`; otherwise records history,
filters the entry out of the ledger, and immediately regenerates the view
passing `updatedModifications` to the collaborator. -/
def handleDeleteViewModification (viewOracle : ViewGenCall → Option String)
    (targetPose : PoseType) (view : ViewType) (modId : String)
    (st : AppState) (processingViews : List ViewType) :
    AppState × List ViewType × List ViewGenCall :=
  if processingViews.contains view then (st, processingViews, [])
  else
    let st1 := recordViewHistory view st
    let updatedModifications :=
      (st.views view).modifications.filter (fun m => m.id ≠ modId)
    let st2 := setView st1 view (fun w => { w with modifications := updatedModifications })
    let pv1 := processingViews ++ [view]
    match viewSourceImage view st with
    | none => (st2, pv1.filter (fun v => v ≠ view), [])
    | some sourceImage =>
        let call := viewLedgerCall view st targetPose sourceImage updatedModifications
        let stFinal :=
          match viewOracle call with
          | some newViewImage =>
              setView st2 view (fun w =>
                { w with
                  originalImage := some newViewImage
                  generatedImage := some newViewImage })
          | none => st2
        (stFinal, pv1.filter (fun v => v ≠ view), [call])

/-- A state with generated FACE and HAIR sheets available for upscaling. -/
def demoUpState : AppState :=
  { emptyState with
    generatedSheets := fun p =>
      if p = "FACE" then { emptySheetFor p with imgUrl := some "oldFace" }
      else if p = "HAIR" then { emptySheetFor p with imgUrl := some "oldHair" }
      else emptySheetFor p }

/-- A mocked upscale collaborator that returns null for the FACE image and
succeeds for everything else. -/
def demoUpscaleOracle : UpscaleOracle := fun img =>
  if img = "oldFace" then Except.ok none else Except.ok (some ("up_" ++ img))

@[simp] theorem setSheet_same (st : AppState) (p : String) (f) :
    (setSheet st p f).generatedSheets p = f (st.generatedSheets p) := by
  simp [setSheet]

theorem setSheet_other (st : AppState) (p q : String) (f) (h : q ≠ p) :
    (setSheet st p f).generatedSheets q = st.generatedSheets q := by
  simp [setSheet, h]

@[simp] theorem setView_same (st : AppState) (v : ViewType) (f) :
    (setView st v f).views v = f (st.views v) := by
  simp [setView]

theorem setView_other (st : AppState) (v w : ViewType) (f) (h : w ≠ v) :
    (setView st v f).views w = st.views w := by
  simp [setView, h]

/-! Helper lemmas about the bounded history push. -/

theorem pushBounded_eq_drop {α : Type} (s : List α) (i : α) :
    pushBounded s i = (s ++ [i]).drop ((s ++ [i]).length - HISTORY_LIMIT) := by
  show (if (s ++ [i]).length > HISTORY_LIMIT then
      (s ++ [i]).drop ((s ++ [i]).length - HISTORY_LIMIT)
    else s ++ [i]) = _
  by_cases h : (s ++ [i]).length > HISTORY_LIMIT
  · rw [if_pos h]
  · rw [if_neg h, Nat.sub_eq_zero_of_le (Nat.le_of_not_lt h), List.drop_zero]

theorem pushBounded_length_le {α : Type} {s : List α} (i : α)
    (h : s.length ≤ HISTORY_LIMIT) : (pushBounded s i).length ≤ HISTORY_LIMIT := by
  rw [pushBounded_eq_drop, List.length_drop, List.length_append, List.length_singleton]
  have hL : HISTORY_LIMIT = 10 := rfl
  rw [hL] at h ⊢
  omega

theorem getLast?_pushBounded {α : Type} (s : List α) (i : α) :
    (pushBounded s i).getLast? = some i := by
  rw [pushBounded_eq_drop]
  have hd : (s ++ [i]).length - HISTORY_LIMIT ≤ s.length := by
    have hL : HISTORY_LIMIT = 10 := rfl
    simp only [List.length_append, List.length_singleton, hL]
    omega
  rw [List.drop_append_of_le_length hd]
  exact List.getLast?_concat _

theorem foldl_pushBounded {α : Type} (items : List α) :
    ∀ s0 : List α, s0.length ≤ HISTORY_LIMIT →
      items.foldl pushBounded s0
        = (s0 ++ items).drop ((s0 ++ items).length - HISTORY_LIMIT) := by
  induction items with
  | nil =>
      intro s0 h
      simp only [List.foldl_nil, List.append_nil]
      rw [Nat.sub_eq_zero_of_le h, List.drop_zero]
  | cons i rest ih =>
      intro s0 h
      rw [List.foldl_cons, ih _ (pushBounded_length_le i h), pushBounded_eq_drop]
      have hd1 : (s0 ++ [i]).length - HISTORY_LIMIT ≤ (s0 ++ [i]).length := Nat.sub_le _ _
      rw [← List.drop_append_of_le_length hd1, List.drop_drop, List.append_assoc,
        List.singleton_append]
      congr 1
      rw [List.length_drop]
      have hL : HISTORY_LIMIT = 10 := rfl
      simp only [List.length_append, List.length_cons, List.length_singleton, List.length_nil,
        hL] at h ⊢
      omega

theorem mutateView_undoStack (v : CharacterView) (o g : Option String)
    (m : List Modification) :
    (mutateView v o g m).history.undoStack
      = pushBounded v.history.undoStack (viewSnapshot v) := rfl

theorem preSnapshots_length (us : List ViewMutation) :
    ∀ v : CharacterView, (preSnapshots v us).length = us.length := by
  induction us with
  | nil => intro v; rfl
  | cons u rest ih => intro v; simp [preSnapshots, ih]

theorem undoStack_applyMutations (us : List ViewMutation) :
    ∀ v : CharacterView,
      (applyMutations v us).history.undoStack
        = (preSnapshots v us).foldl pushBounded v.history.undoStack := by
  induction us with
  | nil => intro v; rfl
  | cons u rest ih =>
      intro v
      show (applyMutations (mutateView v u.1 u.2.1 u.2.2) rest).history.undoStack = _
      rw [ih, preSnapshots, List.foldl_cons, mutateView_undoStack]

/-! Compute lemmas for the undo/redo bodies. -/

theorem handleViewUndoView_of_getLast (viewData : CharacterView) (p : ViewHistoryItem)
    (h : viewData.history.undoStack.getLast? = some p) :
    handleViewUndoView viewData
      = { viewData with
          originalImage := p.originalImage
          generatedImage := p.generatedImage
          modifications := p.modifications
          history :=
            { undoStack := viewData.history.undoStack.dropLast
              redoStack := viewData.history.redoStack ++ [viewSnapshot viewData] } } := by
  unfold handleViewUndoView
  rw [h]

theorem handleViewRedoView_of_getLast (viewData : CharacterView) (p : ViewHistoryItem)
    (h : viewData.history.redoStack.getLast? = some p) :
    handleViewRedoView viewData
      = { viewData with
          originalImage := p.originalImage
          generatedImage := p.generatedImage
          modifications := p.modifications
          history :=
            { undoStack := viewData.history.undoStack ++ [viewSnapshot viewData]
              redoStack := viewData.history.redoStack.dropLast } } := by
  unfold handleViewRedoView
  rw [h]

theorem handlePartUndoSheet_of_getLast (sheet : GeneratedPartSheet) (p : PartHistoryItem)
    (h : sheet.history.undoStack.getLast? = some p) :
    handlePartUndoSheet sheet
      = { sheet with
          imgUrl := p.imgUrl
          modifications := p.modifications
          history :=
            { undoStack := sheet.history.undoStack.dropLast
              redoStack := sheet.history.redoStack ++ [partSnapshot sheet] } } := by
  unfold handlePartUndoSheet
  rw [h]

theorem handlePartRedoSheet_of_getLast (sheet : GeneratedPartSheet) (p : PartHistoryItem)
    (h : sheet.history.redoStack.getLast? = some p) :
    handlePartRedoSheet sheet
      = { sheet with
          imgUrl := p.imgUrl
          modifications := p.modifications
          history :=
            { undoStack := sheet.history.undoStack ++ [partSnapshot sheet]
              redoStack := sheet.history.redoStack.dropLast } } := by
  unfold handlePartRedoSheet
  rw [h]

/-- C3: for every entity (view or part) in state S0, after a mutation
producing state S1, undo restores exactly S0 (deep-equal on all visible
fields), a subsequent redo restores exactly S1, and undo on an empty
undoStack / redo on an empty redoStack are no-ops. -/
theorem C3_undo_redo_round_trip
    (v0 : CharacterView) (o g : Option String) (m : List Modification)
    (s0 : GeneratedPartSheet) (u : Option String) (pm : List Modification)
    (v : CharacterView) (s : GeneratedPartSheet) :
    viewVisible (handleViewUndoView (mutateView v0 o g m)) = viewVisible v0
    ∧ viewVisible (handleViewRedoView (handleViewUndoView (mutateView v0 o g m)))
        = viewVisible (mutateView v0 o g m)
    ∧ partVisible (handlePartUndoSheet (mutatePart s0 u pm)) = partVisible s0
    ∧ partVisible (handlePartRedoSheet (handlePartUndoSheet (mutatePart s0 u pm)))
        = partVisible (mutatePart s0 u pm)
    ∧ (v.history.undoStack = [] → handleViewUndoView v = v)
    ∧ (v.history.redoStack = [] → handleViewRedoView v = v)
    ∧ (s.history.undoStack = [] → handlePartUndoSheet s = s)
    ∧ (s.history.redoStack = [] → handlePartRedoSheet s = s) := by
  have hv1 : (mutateView v0 o g m).history.undoStack.getLast? = some (viewSnapshot v0) := by
    rw [mutateView_undoStack]; exact getLast?_pushBounded _ _
  have hp1 : (mutatePart s0 u pm).history.undoStack.getLast? = some (partSnapshot s0) := by
    show (pushBounded s0.history.undoStack (partSnapshot s0)).getLast? = _
    exact getLast?_pushBounded _ _
  refine ⟨?_, ?_, ?_, ?_, ?_, ?_, ?_, ?_⟩
  · rw [handleViewUndoView_of_getLast _ _ hv1]; rfl
  · rw [handleViewUndoView_of_getLast _ _ hv1]
    rw [handleViewRedoView_of_getLast _ _ (by exact List.getLast?_concat _)]
    rfl
  · rw [handlePartUndoSheet_of_getLast _ _ hp1]; rfl
  · rw [handlePartUndoSheet_of_getLast _ _ hp1]
    rw [handlePartRedoSheet_of_getLast _ _ (by exact List.getLast?_concat _)]
    rfl
  · intro h; unfold handleViewUndoView; rw [h]; rfl
  · intro h; unfold handleViewRedoView; rw [h]; rfl
  · intro h; unfold handlePartUndoSheet; rw [h]; rfl
  · intro h; unfold handlePartRedoSheet; rw [h]; rfl

/-- Witness for C3 at concrete entities. -/
theorem C3_undo_redo_round_trip_witness :
    viewVisible (handleViewUndoView (mutateView cView (some "o2") none [])) = viewVisible cView
    ∧ partVisible (handlePartUndoSheet (mutatePart cSheet none [])) = partVisible cSheet
    ∧ handleViewUndoView cView = cView
    ∧ handleViewRedoView cView = cView
    ∧ handlePartUndoSheet cSheet = cSheet
    ∧ handlePartRedoSheet cSheet = cSheet := by
  have h := C3_undo_redo_round_trip cView (some "o2") none [] cSheet none [] cView cSheet
  exact ⟨h.1, h.2.2.1, h.2.2.2.2.1 rfl, h.2.2.2.2.2.1 rfl,
    h.2.2.2.2.2.2.1 rfl, h.2.2.2.2.2.2.2 rfl⟩

/-- C4: every new mutating action clears `redoStack` entirely and pushes the
pre-mutation snapshot onto `undoStack` with FIFO eviction at depth 10: after
`k` mutations with `k >` the limit `L`, `undoStack` has length exactly `L` and
contains exactly the `L` most recent pre-mutation snapshots, oldest first. -/
theorem C4_bounded_history_fifo
    (w : CharacterView) (o g : Option String) (m : List Modification)
    (sh : GeneratedPartSheet) (u : Option String) (pm : List Modification)
    (v0 : CharacterView) (us : List ViewMutation)
    (h0 : v0.history.undoStack = []) (hk : HISTORY_LIMIT < us.length) :
    (mutateView w o g m).history.redoStack = []
    ∧ (mutateView w o g m).history.undoStack
        = pushBounded w.history.undoStack (viewSnapshot w)
    ∧ (mutatePart sh u pm).history.redoStack = []
    ∧ (mutatePart sh u pm).history.undoStack
        = pushBounded sh.history.undoStack (partSnapshot sh)
    ∧ (applyMutations v0 us).history.undoStack
        = (preSnapshots v0 us).drop (us.length - HISTORY_LIMIT)
    ∧ (applyMutations v0 us).history.undoStack.length = HISTORY_LIMIT := by
  have hs : (applyMutations v0 us).history.undoStack
      = (preSnapshots v0 us).drop (us.length - HISTORY_LIMIT) := by
    rw [undoStack_applyMutations, h0,
      foldl_pushBounded _ [] (by simp [HISTORY_LIMIT])]
    simp [preSnapshots_length]
  refine ⟨rfl, rfl, rfl, rfl, hs, ?_⟩
  rw [hs, List.length_drop, preSnapshots_length]
  omega

/-- Witness for C4: eleven mutations on a fresh view leave exactly the ten
most recent pre-mutation snapshots, oldest first. -/
theorem C4_bounded_history_fifo_witness :
    (applyMutations cView cMuts).history.undoStack
        = (preSnapshots cView cMuts).drop (cMuts.length - HISTORY_LIMIT)
    ∧ (applyMutations cView cMuts).history.undoStack.length = HISTORY_LIMIT := by
  have h := C4_bounded_history_fifo cView none none [] cSheet none [] cView cMuts rfl
    (by decide)
  exact ⟨h.2.2.2.2.1, h.2.2.2.2.2⟩

/-- C9: view undo and redo modify only `originalImage`, `generatedImage`,
`modifications` and the history stacks; the view's `parts` map and its
`userUploadedImage` are left exactly as they were (view history snapshots
capture only the three fields), so an undo after part re-analysis does not
restore earlier detected part crops. -/
theorem C9_undo_redo_parts_frame (viewData : CharacterView) (view : ViewType)
    (st : AppState) :
    (handleViewUndoView viewData).parts = viewData.parts
    ∧ (handleViewUndoView viewData).userUploadedImage = viewData.userUploadedImage
    ∧ (handleViewRedoView viewData).parts = viewData.parts
    ∧ (handleViewRedoView viewData).userUploadedImage = viewData.userUploadedImage
    ∧ ((handleViewUndo view st).views view).parts = (st.views view).parts
    ∧ ((handleViewUndo view st).views view).userUploadedImage
        = (st.views view).userUploadedImage
    ∧ ((handleViewRedo view st).views view).parts = (st.views view).parts
    ∧ ((handleViewRedo view st).views view).userUploadedImage
        = (st.views view).userUploadedImage := by
  have hu : ∀ w : CharacterView, (handleViewUndoView w).parts = w.parts
      ∧ (handleViewUndoView w).userUploadedImage = w.userUploadedImage := by
    intro w
    unfold handleViewUndoView
    cases w.history.undoStack.getLast? <;> exact ⟨rfl, rfl⟩
  have hr : ∀ w : CharacterView, (handleViewRedoView w).parts = w.parts
      ∧ (handleViewRedoView w).userUploadedImage = w.userUploadedImage := by
    intro w
    unfold handleViewRedoView
    cases w.history.redoStack.getLast? <;> exact ⟨rfl, rfl⟩
  refine ⟨(hu viewData).1, (hu viewData).2, (hr viewData).1, (hr viewData).2, ?_, ?_, ?_, ?_⟩
  · rw [handleViewUndo, setView_same]; exact (hu _).1
  · rw [handleViewUndo, setView_same]; exact (hu _).2
  · rw [handleViewRedo, setView_same]; exact (hr _).1
  · rw [handleViewRedo, setView_same]; exact (hr _).2

/-- C5: source resolution as a function of the dispatch-time state: with
balance 0 it has no view-crop contribution; with balance 10 no original-crop
(nor raw-front-fallback) contribution; with 0 < balance < 10 both categories
are active; manual references are always appended last; and the weighting note
appended to the style prompt is non-empty exactly when 0 < balance < 10. -/
theorem C5_balance_boundary (pType : String) (st : AppState) (svm : Bool)
    (bal : Nat) (g : String) :
    resolveSources pType st bal svm
        = originalCropSources pType st bal ++ viewCropSources pType st bal svm
            ++ st.manualReferences pType
    ∧ viewCropSources pType st 0 svm = []
    ∧ resolveSources pType st 0 svm
        = originalCropSources pType st 0 ++ st.manualReferences pType
    ∧ originalCropSources pType st 10 = []
    ∧ resolveSources pType st 10 svm
        = viewCropSources pType st 10 svm ++ st.manualReferences pType
    ∧ (0 < bal → bal < 10 →
        resolveSources pType st bal svm
          = originalCropSources pType st 0 ++ viewCropSources pType st 10 svm
              ++ st.manualReferences pType)
    ∧ (0 < bal → bal < 10 →
        balanceNote bal ≠ ""
          ∧ effectiveStylePrompt g bal
              = (if g = "" then balanceNote bal else g ++ ". " ++ balanceNote bal))
    ∧ (¬(0 < bal ∧ bal < 10) → effectiveStylePrompt g bal = g) := by
  have h2 : viewCropSources pType st 0 svm = [] := by
    unfold viewCropSources
    simp
  have h4 : originalCropSources pType st 10 = [] := by
    unfold originalCropSources
    simp
  refine ⟨rfl, h2, ?_, h4, ?_, ?_, ?_, ?_⟩
  · show originalCropSources pType st 0 ++ viewCropSources pType st 0 svm
        ++ st.manualReferences pType = _
    rw [h2, List.append_nil]
  · show originalCropSources pType st 10 ++ viewCropSources pType st 10 svm
        ++ st.manualReferences pType = _
    rw [h4, List.nil_append]
  · intro h1 h10
    show originalCropSources pType st bal ++ viewCropSources pType st bal svm
        ++ st.manualReferences pType = _
    have ho : originalCropSources pType st bal = originalCropSources pType st 0 := by
      unfold originalCropSources
      rw [if_pos h10, if_pos (by norm_num)]
    have hv : viewCropSources pType st bal svm = viewCropSources pType st 10 svm := by
      unfold viewCropSources
      rw [if_pos h1, if_pos (by norm_num)]
    rw [ho, hv]
  · intro h1 h10
    refine ⟨?_, ?_⟩
    · interval_cases bal <;> decide
    · unfold effectiveStylePrompt
      rw [if_pos ⟨h1, h10⟩]
  · intro h
    unfold effectiveStylePrompt
    rw [if_neg h]

/-- Witness for C5 at balance 5 on a concrete state. -/
theorem C5_balance_boundary_witness :
    resolveSources "FACE" demoState 5 false
        = originalCropSources "FACE" demoState 0 ++ viewCropSources "FACE" demoState 10 false
            ++ demoState.manualReferences "FACE"
    ∧ balanceNote 5 ≠ ""
    ∧ effectiveStylePrompt "" 5 = balanceNote 5
    ∧ effectiveStylePrompt "" 0 = "" := by
  have h := C5_balance_boundary "FACE" demoState false 5 ""
  refine ⟨h.2.2.2.2.2.1 (by decide) (by decide), (h.2.2.2.2.2.2.1 (by decide) (by decide)).1,
    ?_, ?_⟩
  · have := (h.2.2.2.2.2.2.1 (by decide) (by decide)).2
    simpa using this
  · exact (C5_balance_boundary "FACE" demoState false 0 "").2.2.2.2.2.2.2 (by omega)

/-- C6: if source resolution yields an empty list, the part's `imgUrl` becomes
null and `isLoading` false, and the generation collaborator is not invoked at
all for that request. -/
theorem C6_empty_source_short_circuit (bal : Nat) (svm : Bool)
    (oracle : CompositeCall → Option String) (pType : String)
    (currentState store : AppState) (om : Option (List Modification))
    (h : resolveSources pType currentState bal svm = []) :
    generatePart bal svm oracle pType currentState om store
      = (setSheet store pType (fun s => { s with imgUrl := none, isLoading := false }), [])
    ∧ ((generatePart bal svm oracle pType currentState om store).1.generatedSheets
        pType).imgUrl = none
    ∧ ((generatePart bal svm oracle pType currentState om store).1.generatedSheets
        pType).isLoading = false
    ∧ (generatePart bal svm oracle pType currentState om store).2 = [] := by
  have hg : generatePart bal svm oracle pType currentState om store
      = (setSheet store pType (fun s => { s with imgUrl := none, isLoading := false }), []) := by
    unfold generatePart
    rw [h]
    rfl
  refine ⟨hg, ?_, ?_, ?_⟩ <;> rw [hg] <;> simp

/-- Witness for C6: a blank project at balance 10 resolves no sources for
FACE, and the request short-circuits with zero collaborator invocations. -/
theorem C6_empty_source_short_circuit_witness :
    resolveSources "FACE" emptyState 10 false = []
    ∧ ((generatePart 10 false (fun _ => some "x") "FACE" emptyState none
        emptyState).1.generatedSheets "FACE").imgUrl = none
    ∧ ((generatePart 10 false (fun _ => some "x") "FACE" emptyState none
        emptyState).1.generatedSheets "FACE").isLoading = false
    ∧ (generatePart 10 false (fun _ => some "x") "FACE" emptyState none
        emptyState).2 = [] := by
  have h := C6_empty_source_short_circuit 10 false (fun _ => some "x") "FACE"
    emptyState emptyState none (by decide)
  exact ⟨by decide, h.2.1, h.2.2.1, h.2.2.2⟩

/-- Compute lemma: with a non-empty source resolution, `generatePart` sets the
loading flag, makes exactly one collaborator call, and commits its result. -/
theorem generatePart_of_nonempty (bal : Nat) (svm : Bool)
    (oracle : CompositeCall → Option String) (pType : String)
    (cs : AppState) (om : Option (List Modification)) (store : AppState)
    (hne : resolveSources pType cs bal svm ≠ []) :
    generatePart bal svm oracle pType cs om store
      = (setSheet (setSheet store pType (fun s => { s with isLoading := true })) pType
          (fun s => { s with
            imgUrl := oracle (partCall bal svm pType cs om)
            isLoading := false }),
        [partCall bal svm pType cs om]) := by
  unfold generatePart
  cases hc : resolveSources pType cs bal svm with
  | nil => exact absurd hc hne
  | cons a as => rfl

/-- C2: dispatching a second regeneration for an entity while that entity is
in flight (part: `isLoading`; view: `processingViews` membership) yields
exactly one collaborator invocation in total — the second request is a
rejected no-op (state unchanged, zero calls), not queued; during the await
window the part's loading flag is set, so the guard applies. -/
theorem C2_inflight_idempotence
    (bal : Nat) (svm : Bool) (oracle : CompositeCall → Option String)
    (part q : String) (st stq st2 : AppState)
    (viewOracle : ViewGenCall → Option String) (pose : PoseType)
    (v : ViewType) (pv : List ViewType) (stv : AppState) :
    ((st.generatedSheets part).isLoading = true →
      handleRegeneratePart bal svm oracle part st = (st, []))
    ∧ ((generatePartInFlight part st2).generatedSheets part).isLoading = true
    ∧ ((stq.generatedSheets q).isLoading = false →
        resolveSources q stq bal svm ≠ [] →
        (handleRegeneratePart bal svm oracle q stq).2 = [partCall bal svm q stq none])
    ∧ (pv.contains v = true →
        handleBatchRegenerateViews viewOracle pose [v] stv pv = (stv, pv, [])) := by
  refine ⟨?_, ?_, ?_, ?_⟩
  · intro h
    unfold handleRegeneratePart
    rw [h]
    rfl
  · simp [generatePartInFlight]
  · intro h hne
    unfold handleRegeneratePart
    rw [h]
    show (generatePart bal svm oracle q stq none (recordPartHistory q stq)).2 = _
    rw [generatePart_of_nonempty bal svm oracle q stq none _ hne]
  · intro h
    have hfv : (!(pv.contains v)) = false := by rw [h]; rfl
    have hval : List.filter (fun w => !(pv.contains w)) [v] = [] := by
      rw [List.filter_cons, hfv]
      rfl
    unfold handleBatchRegenerateViews
    rw [hval]
    rfl

/-- Witness for C2 at concrete states: a loading FACE rejects the dispatch, a
non-loading HAIR produces exactly one call, and a FRONT already in
`processingViews` is dropped. -/
theorem C2_inflight_idempotence_witness :
    handleRegeneratePart 10 false demoOracle "FACE" demoLoadingState = (demoLoadingState, [])
    ∧ ((generatePartInFlight "FACE" emptyState).generatedSheets "FACE").isLoading = true
    ∧ (handleRegeneratePart 10 false demoOracle "HAIR" demoState).2
        = [partCall 10 false "HAIR" demoState none]
    ∧ handleBatchRegenerateViews (fun _ => none) PoseType.A_POSE [ViewType.FRONT]
        emptyState [ViewType.FRONT] = (emptyState, [ViewType.FRONT], []) := by
  have h := C2_inflight_idempotence 10 false demoOracle "FACE" "HAIR" demoLoadingState
    demoState emptyState (fun _ => none) PoseType.A_POSE ViewType.FRONT
    [ViewType.FRONT] emptyState
  exact ⟨h.1 (by decide), h.2.1, h.2.2.1 (by decide) (by decide), h.2.2.2 (by decide)⟩

/-- C8: for every part or view, appending a modification (producing ledger
`[m1, m2]`) or removing an entry immediately triggers a regeneration whose
collaborator call receives exactly the updated ledger, never the pre-edit one;
removal preserves the order and ids of the remaining entries (the filtered
ledger is a sublist). Parts go through
`handlePartModification`/`handleDeleteModification`, views through
`handleViewModification`/`handleDeleteViewModification`. -/
theorem C8_ledger_causality
    (bal : Nat) (svm : Bool) (oracle : CompositeCall → Option String)
    (part prompt : String) (image : Option String) (newId : String) (now : Nat)
    (modId : String) (st : AppState)
    (viewOracle : ViewGenCall → Option String) (pose : PoseType) (view : ViewType)
    (stv : AppState) (pv : List ViewType) (src : String)
    (vPrompt : String) (vImage : Option String) (vId : String) (vNow : Nat)
    (vModId : String)
    (hload : (st.generatedSheets part).isLoading = false)
    (hcrops : resolveSources part st bal svm ≠ []) :
    (handlePartModification bal svm oracle part prompt image newId now st).2
        = [partCall bal svm part st
            (some ((st.generatedSheets part).modifications
              ++ [{ id := newId, prompt := prompt, image := image, timestamp := now }]))]
    ∧ (partCall bal svm part st
          (some ((st.generatedSheets part).modifications
            ++ [{ id := newId, prompt := prompt, image := image,
                  timestamp := now }]))).modifications
        = (st.generatedSheets part).modifications
            ++ [{ id := newId, prompt := prompt, image := image, timestamp := now }]
    ∧ (handleDeleteModification bal svm oracle part modId st).2
        = [partCall bal svm part st
            (some ((st.generatedSheets part).modifications.filter
              (fun m => m.id ≠ modId)))]
    ∧ (partCall bal svm part st
          (some ((st.generatedSheets part).modifications.filter
            (fun m => m.id ≠ modId)))).modifications
        = (st.generatedSheets part).modifications.filter (fun m => m.id ≠ modId)
    ∧ ((st.generatedSheets part).modifications.filter (fun m => m.id ≠ modId)).Sublist
        (st.generatedSheets part).modifications
    ∧ (pv.contains view = false → viewSourceImage view stv = some src →
        (handleViewModification viewOracle pose view vPrompt vImage vId vNow stv pv).2.2
          = [viewLedgerCall view stv pose src
              ((stv.views view).modifications
                ++ [{ id := vId, prompt := vPrompt, image := vImage, timestamp := vNow }])])
    ∧ (pv.contains view = false → viewSourceImage view stv = some src →
        (handleDeleteViewModification viewOracle pose view vModId stv pv).2.2
          = [viewLedgerCall view stv pose src
              ((stv.views view).modifications.filter (fun m => m.id ≠ vModId))])
    ∧ ((stv.views view).modifications.filter (fun m => m.id ≠ vModId)).Sublist
        (stv.views view).modifications := by
  refine ⟨?_, rfl, ?_, rfl, List.filter_sublist _, ?_, ?_, List.filter_sublist _⟩
  · unfold handlePartModification
    rw [hload]
    show (generatePart bal svm oracle part st _ _).2 = _
    rw [generatePart_of_nonempty bal svm oracle part st _ _ hcrops]
  · unfold handleDeleteModification
    rw [hload]
    show (generatePart bal svm oracle part st _ _).2 = _
    rw [generatePart_of_nonempty bal svm oracle part st _ _ hcrops]
  · intro hpv hsrc
    unfold handleViewModification
    rw [hpv, hsrc]
    rfl
  · intro hpv hsrc
    unfold handleDeleteViewModification
    rw [hpv, hsrc]
    rfl

/-- Witness for C8 on a concrete part with manual references and a concrete
FRONT view with a source image. -/
theorem C8_ledger_causality_witness :
    (handlePartModification 10 false demoOracle "HAIR" "make it blue" none "m2" 5
        demoState).2
      = [partCall 10 false "HAIR" demoState
          (some ((demoState.generatedSheets "HAIR").modifications
            ++ [{ id := "m2", prompt := "make it blue", image := none, timestamp := 5 }]))]
    ∧ (handleDeleteModification 10 false demoOracle "HAIR" "m1" demoState).2
      = [partCall 10 false "HAIR" demoState
          (some ((demoState.generatedSheets "HAIR").modifications.filter
            (fun m => m.id ≠ "m1")))]
    ∧ (handleViewModification (fun _ => some "newImg") PoseType.A_POSE ViewType.FRONT
        "tweak" none "vm2" 7 demoViewState []).2.2
      = [viewLedgerCall ViewType.FRONT demoViewState PoseType.A_POSE "frontU"
          ((demoViewState.views ViewType.FRONT).modifications
            ++ [{ id := "vm2", prompt := "tweak", image := none, timestamp := 7 }])]
    ∧ (handleDeleteViewModification (fun _ => some "newImg") PoseType.A_POSE ViewType.FRONT
        "vm1" demoViewState []).2.2
      = [viewLedgerCall ViewType.FRONT demoViewState PoseType.A_POSE "frontU"
          ((demoViewState.views ViewType.FRONT).modifications.filter
            (fun m => m.id ≠ "vm1"))] := by
  have h := C8_ledger_causality 10 false demoOracle "HAIR" "make it blue" none "m2" 5
    "m1" demoState (fun _ => some "newImg") PoseType.A_POSE ViewType.FRONT
    demoViewState [] "frontU" "tweak" none "vm2" 7 "vm1" (by decide) (by decide)
  exact ⟨h.1, h.2.2.1, h.2.2.2.2.2.1 (by decide) (by decide),
    h.2.2.2.2.2.2.1 (by decide) (by decide)⟩

/-- C7: when a per-view regeneration succeeds (non-null collaborator result),
both `originalImage` and `generatedImage` of that view are overwritten with
the new result and `userUploadedImage` is left unchanged; when it returns
null, none of the three image fields change. -/
theorem C7_view_regen_frame
    (viewOracle : ViewGenCall → Option String) (pose : PoseType) (v : ViewType)
    (st : AppState) (pv : List ViewType) (src : String)
    (hpv : pv.contains v = false)
    (hsrc : viewSourceImage v st = some src) :
    ((handleBatchRegenerateViews viewOracle pose [v] st pv).1.views v).userUploadedImage
        = (st.views v).userUploadedImage
    ∧ (∀ img, viewOracle (viewCallFor v st pose src) = some img →
        ((handleBatchRegenerateViews viewOracle pose [v] st pv).1.views v).originalImage
            = some img
        ∧ ((handleBatchRegenerateViews viewOracle pose [v] st pv).1.views v).generatedImage
            = some img)
    ∧ (viewOracle (viewCallFor v st pose src) = none →
        ((handleBatchRegenerateViews viewOracle pose [v] st pv).1.views v).originalImage
            = (st.views v).originalImage
        ∧ ((handleBatchRegenerateViews viewOracle pose [v] st pv).1.views v).generatedImage
            = (st.views v).generatedImage) := by
  have hfv : (!(pv.contains v)) = true := by rw [hpv]; rfl
  have hval : List.filter (fun w => !(pv.contains w)) [v] = [v] := by
    rw [List.filter_cons, hfv]
    rfl
  cases hres : viewOracle (viewCallFor v st pose src) with
  | none =>
      have hrun : (handleBatchRegenerateViews viewOracle pose [v] st pv).1
          = recordViewHistory v st := by
        unfold viewCallFor at hres
        unfold handleBatchRegenerateViews
        rw [hval]
        simp only [List.isEmpty_cons, Bool.false_eq_true, if_false, List.foldl_cons,
          List.foldl_nil, hsrc, hres]
      refine ⟨?_, ?_, ?_⟩
      · rw [hrun, recordViewHistory, setView_same]; rfl
      · intro img himg
        exact Option.noConfusion himg
      · intro _
        rw [hrun, recordViewHistory, setView_same]
        exact ⟨rfl, rfl⟩
  | some img0 =>
      have hrun : (handleBatchRegenerateViews viewOracle pose [v] st pv).1
          = setView (recordViewHistory v st) v (fun w =>
              { w with originalImage := some img0, generatedImage := some img0 }) := by
        unfold viewCallFor at hres
        unfold handleBatchRegenerateViews
        rw [hval]
        simp only [List.isEmpty_cons, Bool.false_eq_true, if_false, List.foldl_cons,
          List.foldl_nil, hsrc, hres]
      refine ⟨?_, ?_, ?_⟩
      · rw [hrun, setView_same, recordViewHistory, setView_same]; rfl
      · intro img himg
        have hii : img0 = img := Option.some.inj himg
        subst hii
        rw [hrun, setView_same]
        exact ⟨rfl, rfl⟩
      · intro hn
        exact Option.noConfusion hn

/-- Witness for C7: a successful FRONT regeneration on a concrete state. -/
theorem C7_view_regen_frame_witness :
    ((handleBatchRegenerateViews (fun _ => some "newImg") PoseType.A_POSE [ViewType.FRONT]
        demoViewState []).1.views ViewType.FRONT).originalImage = some "newImg"
    ∧ ((handleBatchRegenerateViews (fun _ => some "newImg") PoseType.A_POSE [ViewType.FRONT]
        demoViewState []).1.views ViewType.FRONT).generatedImage = some "newImg"
    ∧ ((handleBatchRegenerateViews (fun _ => some "newImg") PoseType.A_POSE [ViewType.FRONT]
        demoViewState []).1.views ViewType.FRONT).userUploadedImage = some "frontU" := by
  have h := C7_view_regen_frame (fun _ => some "newImg") PoseType.A_POSE ViewType.FRONT
    demoViewState [] "frontU" (by decide) (by decide)
  exact ⟨(h.2.1 "newImg" rfl).1, (h.2.1 "newImg" rfl).2, h.1.trans (by decide)⟩

/-- C10: upscaling never sets `imgUrl` to null — it is dispatched only when
`imgUrl` is non-null (no-op otherwise, and no-op while loading), and if the
upscale call returns null or throws, `imgUrl` keeps its prior value while
`isLoading` returns to false; on success `imgUrl` becomes the upscaled image.
The batch path behaves the same (shown on a concrete two-part batch whose
FACE upscale fails). -/
theorem C10_upscale_never_nulls
    (uo : UpscaleOracle) (part : String) (st : AppState) (ups : List String) :
    ((st.generatedSheets part).isLoading = true →
        handleUpscalePart uo part st ups = (st, ups, []))
    ∧ ((st.generatedSheets part).imgUrl = none →
        handleUpscalePart uo part st ups = (st, ups, []))
    ∧ (∀ img, (st.generatedSheets part).imgUrl = some img →
        (st.generatedSheets part).isLoading = false →
        (uo img = Except.ok none ∨ uo img = Except.error ()) →
        ((handleUpscalePart uo part st ups).1.generatedSheets part).imgUrl = some img
        ∧ ((handleUpscalePart uo part st ups).1.generatedSheets part).isLoading = false)
    ∧ (∀ img u, (st.generatedSheets part).imgUrl = some img →
        (st.generatedSheets part).isLoading = false →
        uo img = Except.ok (some u) →
        ((handleUpscalePart uo part st ups).1.generatedSheets part).imgUrl = some u
        ∧ ((handleUpscalePart uo part st ups).1.generatedSheets part).isLoading = false)
    ∧ (((handleBatchUpscaleParts demoUpscaleOracle ["FACE", "HAIR"] demoUpState
          []).1.generatedSheets "FACE").imgUrl = some "oldFace"
      ∧ ((handleBatchUpscaleParts demoUpscaleOracle ["FACE", "HAIR"] demoUpState
          []).1.generatedSheets "FACE").isLoading = false
      ∧ ((handleBatchUpscaleParts demoUpscaleOracle ["FACE", "HAIR"] demoUpState
          []).1.generatedSheets "HAIR").imgUrl = some "up_oldHair"
      ∧ ((handleBatchUpscaleParts demoUpscaleOracle ["FACE", "HAIR"] demoUpState
          []).1.generatedSheets "HAIR").isLoading = false) := by
  refine ⟨?_, ?_, ?_, ?_, ?_⟩
  · intro h
    unfold handleUpscalePart
    rw [h]
    rfl
  · intro hnone
    unfold handleUpscalePart
    rw [hnone]
    cases hl : (st.generatedSheets part).isLoading <;> rfl
  · intro img himg hload hor
    unfold handleUpscalePart
    rw [hload, himg]
    rcases hor with h1 | h1 <;>
      simp [h1, himg, recordPartHistory, recordPartHistorySheet]
  · intro img u himg hload hok
    unfold handleUpscalePart
    rw [hload, himg]
    simp [hok, recordPartHistory, recordPartHistorySheet]
  · refine ⟨by decide, by decide, by decide, by decide⟩

/-- Witness for C10 on concrete states: a loading no-op, a null-image no-op,
a failing upscale that preserves the image, and a successful one. -/
theorem C10_upscale_never_nulls_witness :
    handleUpscalePart demoUpscaleOracle "FACE" demoLoadingState [] = (demoLoadingState, [], [])
    ∧ handleUpscalePart demoUpscaleOracle "TOP" emptyState [] = (emptyState, [], [])
    ∧ ((handleUpscalePart demoUpscaleOracle "FACE" demoUpState []).1.generatedSheets
        "FACE").imgUrl = some "oldFace"
    ∧ ((handleUpscalePart demoUpscaleOracle "FACE" demoUpState []).1.generatedSheets
        "FACE").isLoading = false
    ∧ ((handleUpscalePart demoUpscaleOracle "HAIR" demoUpState []).1.generatedSheets
        "HAIR").imgUrl = some "up_oldHair" := by
  have h1 := C10_upscale_never_nulls demoUpscaleOracle "FACE" demoLoadingState []
  have h2 := C10_upscale_never_nulls demoUpscaleOracle "TOP" emptyState []
  have h3 := C10_upscale_never_nulls demoUpscaleOracle "FACE" demoUpState []
  have h4 := C10_upscale_never_nulls demoUpscaleOracle "HAIR" demoUpState []
  refine ⟨h1.1 (by decide), h2.2.1 (by decide), ?_, ?_, ?_⟩
  · exact (h3.2.2.1 "oldFace" (by decide) (by decide) (Or.inl rfl)).1
  · exact (h3.2.2.1 "oldFace" (by decide) (by decide) (Or.inl rfl)).2
  · exact (h4.2.2.2.1 "oldHair" "up_oldHair" (by decide) (by decide) rfl).1

/-- Counterexample to C1 as stated: on a state whose FACE sheet holds a prior
image and whose source resolution is non-empty, a regeneration whose
collaborator returns null ends with `imgUrl = null` — the pre-dispatch value
is NOT preserved on collaborator failure (src/App.tsx lines 711-723 write the
null result straight into `imgUrl`). -/
theorem C1_counterexample :
    resolveSources "FACE" demoState 10 false = ["faceRef"]
    ∧ (demoState.generatedSheets "FACE").imgUrl = some "oldFace"
    ∧ demoOracle (partCall 10 false "FACE" demoState none) = none
    ∧ ((handleRegeneratePart 10 false demoOracle "FACE" demoState).1.generatedSheets
        "FACE").imgUrl = none
    ∧ ((handleRegeneratePart 10 false demoOracle "FACE" demoState).1.generatedSheets
        "FACE").imgUrl ≠ (demoState.generatedSheets "FACE").imgUrl := by
  exact ⟨by decide, by decide, by decide, by decide, by decide⟩

/-- C1 (amended): when the regeneration collaborator call fails or returns
null, the part ends with `isLoading = false` and `imgUrl` overwritten with the
null result (so `imgUrl` becomes null on collaborator failure as well as on
empty source resolution); in a batch, one part's collaborator failure leaves
every other part's outcome (`isLoading = false`, its own generated `imgUrl`)
unaffected — shown on a three-part batch failing for FACE only. -/
theorem C1_failure_nulls_and_batch_isolation
    (bal : Nat) (svm : Bool) (oracle : CompositeCall → Option String)
    (pType : String) (cs : AppState) (om : Option (List Modification))
    (store : AppState)
    (hcrops : resolveSources pType cs bal svm ≠ [])
    (hfail : oracle (partCall bal svm pType cs om) = none) :
    (((generatePart bal svm oracle pType cs om store).1.generatedSheets
        pType).isLoading = false
      ∧ ((generatePart bal svm oracle pType cs om store).1.generatedSheets
          pType).imgUrl = none)
    ∧ (((handleBatchRegenerateParts 10 false demoOracle ["FACE", "HAIR", "TOP"]
          demoState).1.generatedSheets "HAIR").isLoading = false
      ∧ ((handleBatchRegenerateParts 10 false demoOracle ["FACE", "HAIR", "TOP"]
          demoState).1.generatedSheets "HAIR").imgUrl = some "gen_HAIR"
      ∧ ((handleBatchRegenerateParts 10 false demoOracle ["FACE", "HAIR", "TOP"]
          demoState).1.generatedSheets "TOP").isLoading = false
      ∧ ((handleBatchRegenerateParts 10 false demoOracle ["FACE", "HAIR", "TOP"]
          demoState).1.generatedSheets "TOP").imgUrl = some "gen_TOP"
      ∧ ((handleBatchRegenerateParts 10 false demoOracle ["FACE", "HAIR", "TOP"]
          demoState).1.generatedSheets "FACE").isLoading = false
      ∧ ((handleBatchRegenerateParts 10 false demoOracle ["FACE", "HAIR", "TOP"]
          demoState).1.generatedSheets "FACE").imgUrl = none) := by
  refine ⟨?_, by decide, by decide, by decide, by decide, by decide, by decide⟩
  rw [generatePart_of_nonempty bal svm oracle pType cs om store hcrops]
  refine ⟨by simp, by simp [hfail]⟩

/-- Witness for C1 (amended) at a concrete failing regeneration. -/
theorem C1_failure_nulls_witness :
    ((generatePart 10 false demoOracle "FACE" demoState none
        demoState).1.generatedSheets "FACE").isLoading = false
    ∧ ((generatePart 10 false demoOracle "FACE" demoState none
        demoState).1.generatedSheets "FACE").imgUrl = none := by
  have h := C1_failure_nulls_and_batch_isolation 10 false demoOracle "FACE" demoState
    none demoState (by decide) (by decide)
  exact ⟨h.1.1, h.1.2⟩
